import Mathlib

/-!
Verification of the audio playback agent (`src/audio_client.py`).

The development shallowly embeds the parts of `audio_client.py` that the
claims are about:

* the spoken-fraction computation of `playback_worker` (lines 105-106 and
  135-138), over exact rational arithmetic;
* the `asyncio.Queue` used as `playback_queue` (line 63), with the asyncio
  `full` / `put_nowait` semantics;
* the device-retry loop of `playback_worker` (lines 108-133);
* the decode step of `playback_worker` (lines 93-98);
* the cooperative interleaving of `playback_worker`,
  `handle_start_speaking` and producers, as an event-step machine;
* the HTTP handler `handle_start_speaking` (lines 158-170);
* the reconnect/backoff loop of `_generic_socket` (lines 201-243);
* the inbound-message processing of `_generic_socket` (lines 217-238).

Python floats are modelled as exact rationals; Python `int()` truncation,
`str.split()` and list slicing are modelled by `pyInt`, `pySplit` and
`pySliceTo` below.
-/

/-- A queued clip: the `(text, audio_bytes)` pair placed on
`playback_queue` (`audio_client.py` line 63). Audio bytes are a list of
byte values. -/
structure Clip where
  text : String
  audio : List Nat
deriving DecidableEq, Repr

/-- Python `str.split()` helper: walk the characters, `acc` holds the
current (reversed) in-progress word. -/
def pySplitAux : List Char → List Char → List String
  | [], acc => if acc = [] then [] else [String.mk acc.reverse]
  | c :: cs, acc =>
    if c.isWhitespace then
      if acc = [] then pySplitAux cs []
      else String.mk acc.reverse :: pySplitAux cs []
    else pySplitAux cs (c :: acc)

/-- Python `text.split()` with no separator: split on runs of whitespace,
returning no empty words (`audio_client.py` line 105). -/
def pySplit (s : String) : List String :=
  pySplitAux s.data []

/-- Python `int()` applied to a real value: truncation toward zero. -/
def pyInt (q : ℚ) : ℤ :=
  if 0 ≤ q then ⌊q⌋ else ⌈q⌉

/-- Python list slice `l[:n]`, including the negative-index case. -/
def pySliceTo (l : List String) (n : ℤ) : List String :=
  if 0 ≤ n then l.take n.toNat else l.take (l.length - (-n).toNat)

/-- The spoken-fraction computation of `playback_worker`
(`audio_client.py` lines 105-106 and 135-138) as a pure function of the
clip text, the clip duration, and the raw elapsed time `now - start`:

    words = text.split()
    word_dur = duration / len(words) if words else 0.0
    elapsed = min(now - start, duration)
    spoken_words = int(elapsed / word_dur) if word_dur else 0
    spoken_text = " ".join(words[:spoken_words])

Arithmetic is exact rational arithmetic. -/
def computeSpokenText (text : String) (duration rawElapsed : ℚ) : String :=
  let words := pySplit text
  let word_dur : ℚ := if words = [] then 0 else duration / (words.length : ℚ)
  let elapsed : ℚ := min rawElapsed duration
  let spoken_words : ℤ := if word_dur = 0 then 0 else pyInt (elapsed / word_dur)
  String.intercalate " " (pySliceTo words spoken_words)

/-- An `asyncio.Queue`: `maxsize` (0 means unbounded, the asyncio default)
and the current items, oldest first. -/
structure AQueue (α : Type) where
  maxsize : Nat
  items : List α
deriving DecidableEq, Repr

/-- The asyncio method `Queue.full()`: `False` when `maxsize <= 0`, otherwise
`qsize() >= maxsize`. -/
def AQueue.isFull {α : Type} (q : AQueue α) : Bool :=
  if q.maxsize = 0 then false else decide (q.items.length ≥ q.maxsize)

/-- The asyncio method `Queue.put_nowait(x)`: raises `QueueFull` when the queue is
full, otherwise appends `x`. -/
def AQueue.put_nowait {α : Type} (q : AQueue α) (x : α) :
    Except String (AQueue α) :=
  if q.isFull then Except.error "QueueFull"
  else Except.ok { q with items := q.items ++ [x] }

/-- The module-level `playback_queue: asyncio.Queue = asyncio.Queue()`
(`audio_client.py` line 63): the asyncio default `maxsize` is 0, i.e. the
queue is constructed without a capacity bound. -/
def playback_queue : AQueue Clip :=
  { maxsize := 0, items := [] }

/-- The audio output device behaviour for one clip, as seen by the retry
loop of `playback_worker` (`audio_client.py` lines 108-133). `tryBody n`
is the outcome of the whole `try` body on loop iteration `n` (the
`sd.stop(); sd.play(..., blocking=False)` call plus the polling loop):
either it completes (normally or because the stop event was observed), or
it raises a `PortAudioError` carrying a message. `blockingPlay` is the
outcome of the recovery call `sd.play(audio, sr, blocking=True)` made
inside the `except` handler. -/
structure Device where
  tryBody : Nat → Except String Unit
  blockingPlay : Except String Unit

/-- The retry loop `for attempt in (1, 2): ...` of `playback_worker`
(`audio_client.py` lines 108-133), evaluated over the remaining list of
attempt numbers. The result is the `start` timestamp left behind for the
spoken-fraction computation (`some` when a branch assigned `start`), or
`Except.error` when an exception escapes the loop uncaught:

* the `try` body succeeding breaks with `start = time.time()` (`now`);
* on `PortAudioError`, if `attempt == 2` the failure is logged and the
  loop breaks (`start` unassigned by this clip);
* otherwise the handler resets the device and calls
  `sd.play(..., blocking=True)` — a call that is NOT inside any `try`,
  so if it raises, the exception propagates out of the loop (and out of
  `playback_worker`, which has no enclosing handler) — then backdates
  `start = time.time() - duration` and breaks. -/
def attemptLoop (dev : Device) (now duration : ℚ) :
    List Nat → Except String (Option ℚ)
  | [] => Except.ok none
  | attempt :: _rest =>
    match dev.tryBody attempt with
    | Except.ok _ => Except.ok (some now)
    | Except.error _exc =>
      if attempt = 2 then Except.ok none
      else
        match dev.blockingPlay with
        | Except.ok _ => Except.ok (some (now - duration))
        | Except.error exc2 => Except.error exc2

/-- The decoded audio produced by the external WAV decoder: sample rate
and the length of the sample array (spec section 1 gives the decoder
interface; `_decode_wav`, `audio_client.py` lines 71-81, wraps the Python
`wave` module). -/
structure DecodedAudio where
  sr : ℚ
  frameLen : Nat
deriving DecidableEq, Repr

/-- A Python value bound to `audio_bytes` after the queue `get`: either an
actual `bytes` object (a list of byte values), or a value of some other
type. -/
inductive PyAudioVal
  | bytesVal (b : List Nat)
  | otherVal
deriving DecidableEq, Repr

/-- The decode step of one `playback_worker` iteration
(`audio_client.py` lines 93-97), parameterized by the external decoder:

    if isinstance(audio_bytes, bytes):
        sr, audio = _decode_wav(audio_bytes)
    else:
        print(f"Received invalid audio data")
        continue

`Except.ok none` is the logged skip (`continue`); `Except.ok (some d)` is
a successful decode; `Except.error` is an exception raised by
`_decode_wav` — there is no `try` around the call in `playback_worker`,
so it unwinds out of the worker. -/
def workerDecode (decode : List Nat → Except String DecodedAudio) :
    PyAudioVal → Except String (Option DecodedAudio)
  | PyAudioVal.bytesVal b =>
    match decode b with
    | Except.ok d => Except.ok (some d)
    | Except.error e => Except.error e
  | PyAudioVal.otherVal => Except.ok none

/-- Modelled from the spec: the WAV container decoder is an external
collaborator, `decode(bytes) -> (sampleRate, channelCount,
normalizedSamples)` or error (spec section 1); `src/audio_client.py` only
calls the Python `wave` module, whose code is not part of this repository.
We model the container check that a well-formed file begins with the RIFF
magic `52 49 46 46`; any other byte string raises a `wave.Error`. -/
def decodeWavModel (b : List Nat) : Except String DecodedAudio :=
  if b.take 4 = [82, 73, 70, 70] then Except.ok { sr := 16000, frameLen := b.length }
  else Except.error "file does not start with RIFF id"

/-- The shared state of the cooperative tasks of `audio_client.py`:
the playback queue contents, the `stop_playback_event` flag, the clip
currently inside the polling loop of `playback_worker` (if any), and the
list of clips whose playback has been started, in order. -/
structure SysState where
  queue : List Clip
  interrupt : Bool
  playing : Option Clip
  played : List Clip
deriving DecidableEq, Repr

/-- Atomic events of the cooperative (single-threaded asyncio)
interleaving; each event is one segment of a task between awaits:

* `enq c` — a producer performs `playback_queue.put_nowait(c)`;
* `deq` — `playback_worker` returns from `await playback_queue.get()`
  and immediately runs `stop_playback_event.clear()`
  (`audio_client.py` lines 91-92), beginning playback of the clip;
* `poll` — one iteration of the polling loop (lines 113-120): if
  `stop_playback_event.is_set()` the device is stopped and the loop
  breaks;
* `finish` — the polling loop observes `elapsed >= duration` and breaks
  (lines 118-119);
* `startSpeaking` — the body of `handle_start_speaking` for a
  `"Start speaking"` message (lines 161-169): `stop_playback_event.set()`
  followed by the drain loop, with no `await` in between, hence atomic. -/
inductive Ev
  | enq (c : Clip)
  | deq
  | poll
  | finish
  | startSpeaking
deriving DecidableEq, Repr

/-- One atomic step of the system. Events that do not apply in the
current state (e.g. `deq` while a clip is playing, the worker being a
single sequential coroutine) leave the state unchanged. -/
def step (s : SysState) : Ev → SysState
  | Ev.enq c => { s with queue := s.queue ++ [c] }
  | Ev.deq =>
    match s.queue, s.playing with
    | c :: rest, none =>
      { queue := rest, interrupt := false, playing := some c,
        played := s.played ++ [c] }
    | _, _ => s
  | Ev.poll =>
    match s.playing with
    | some _ => if s.interrupt then { s with playing := none } else s
    | none => s
  | Ev.finish =>
    match s.playing with
    | some _ => { s with playing := none }
    | none => s
  | Ev.startSpeaking => { s with interrupt := true, queue := [] }

/-- Run a sequence of atomic events from a state. -/
def run (s : SysState) (es : List Ev) : SysState :=
  es.foldl step s

/-- The polling interval of `playback_worker`: `await asyncio.sleep(0.05)`
(`audio_client.py` line 120), in seconds. -/
def pollInterval : ℚ := 5 / 100

/-- The state touched by `handle_start_speaking`: the queue and the
`stop_playback_event` flag. -/
structure CtrlState where
  queue : List Clip
  interrupt : Bool
deriving DecidableEq, Repr

/-- The drain loop of `handle_start_speaking` (`audio_client.py` lines
165-169): `while not playback_queue.empty(): playback_queue.get_nowait()`.
It runs without awaiting, removing items one at a time until the queue is
empty. -/
def drainQueue : List Clip → List Clip
  | [] => []
  | _ :: rest => drainQueue rest

/-- An HTTP response: status and body. `web.Response(text=...)` has
status 200. -/
structure HttpResp where
  status : Nat
  body : String
deriving DecidableEq, Repr

/-- The handler `handle_start_speaking` (`audio_client.py` lines
158-170), as a function of the `message` field of the request body and the
shared state. When the field equals `"Start speaking"` it sets the stop
event, drains the queue and returns `web.Response(text="true")`; any
other body falls off the end of the function (Python returns `None`). -/
def handle_start_speaking (message : Option String) (st : CtrlState) :
    CtrlState × Option HttpResp :=
  if message = some "Start speaking" then
    ({ queue := drainQueue st.queue, interrupt := true },
     some { status := 200, body := "true" })
  else (st, none)

/-- A connection-cycle outcome for one feed connector, as seen by the
`while True` loop of `_generic_socket` (`audio_client.py` lines 201-243):
either the `websockets.connect` block was entered (so `retry = 0` ran),
or some exception reached the `except` clause. -/
inductive ConnEv
  | success
  | failure
deriving DecidableEq, Repr

/-- One iteration of the outer loop of `_generic_socket` acting on the `retry`
counter: on success `retry = 0` (line 208) and no sleep; on failure
`retry += 1; delay = min(60, 2 ** retry); await asyncio.sleep(delay)`
(lines 240-243). Returns the new counter and the delay slept, if any. -/
def connStep (retry : Nat) : ConnEv → Nat × Option Nat
  | ConnEv.success => (0, none)
  | ConnEv.failure => (retry + 1, some (min 60 (2 ^ (retry + 1))))

/-- Run the connector over a sequence of connection outcomes, collecting
the backoff delays slept, in order. -/
def runConn (retry : Nat) : List ConnEv → Nat × List Nat
  | [] => (retry, [])
  | e :: es =>
    let p := connStep retry e
    let rest := runConn p.1 es
    (rest.1, p.2.toList ++ rest.2)

/-- The configured robot identity (`audio_client.py` line 41). -/
def ROBOT_ID : String := "robot_1"

/-- The fields of an inbound feed message that `_generic_socket` consumes
(`audio_client.py` lines 224-231): `msg.get("robot_id")`,
`msg.get("text", "")` and `msg.get("audio")`. -/
structure InMsg where
  robot_id : Option String
  text : String
  audio : Option (List Nat)
deriving DecidableEq, Repr

/-- A raw inbound frame: either `json.loads` fails, or it yields a
message. -/
inductive RawMsg
  | invalidJson (err : String)
  | valid (m : InMsg)
deriving DecidableEq, Repr

/-- Python `bytes(audio_list)`: succeeds iff every element is a byte
value, else raises `ValueError`. -/
def pyBytes (l : List Nat) : Except String (List Nat) :=
  if l.all (fun b => b < 256) then Except.ok l
  else Except.error "bytes must be in range(0, 256)"

/-- Evaluating the name `enqueue_clip` at the call site
`await enqueue_clip(audio_bytes, text)` (`audio_client.py` line 236): the
definition of `enqueue_clip` exists only in commented-out text (lines
147-153 are comments), so in the active module the name is undefined and
the call raises `NameError`. -/
def enqueue_clip_call : Except String Unit :=
  Except.error "NameError: name enqueue_clip is not defined"

/-- Processing of one inbound frame by `_generic_socket`
(`audio_client.py` lines 217-238), returning the playback queue after the
frame and the log lines printed:

    try:
        msg = json.loads(raw)
    except json.JSONDecodeError as exc:
        print(f"JSON error: ..."); continue
    if label == "primary" and msg.get("robot_id") != ROBOT_ID:
        continue
    text = msg.get("text", "")
    if text: print(text)
    audio_list = msg.get("audio")
    if audio_list:
        try:
            audio_bytes = bytes(audio_list)
            print(f"Received audio of length: ...")
            await enqueue_clip(audio_bytes, text)
        except Exception as exc:
            print(f"Error processing audio data: ...")

`if audio_list:` is Python truthiness: `None` and `[]` are both falsy.
The inner `except Exception` catches both the `ValueError` from `bytes`
and the `NameError` from `enqueue_clip`. -/
def processMsg (label : String) (q : List Clip) (raw : RawMsg) :
    List Clip × List String :=
  match raw with
  | RawMsg.invalidJson err => (q, ["JSON error: " ++ err])
  | RawMsg.valid m =>
    if label = "primary" ∧ m.robot_id ≠ some ROBOT_ID then (q, [])
    else
      let textLogs : List String := if m.text ≠ "" then [m.text] else []
      match m.audio with
      | none => (q, textLogs)
      | some l =>
        if l = [] then (q, textLogs)
        else
          match pyBytes l with
          | Except.error e =>
            (q, textLogs ++ ["Error processing audio data: " ++ e])
          | Except.ok ab =>
            match enqueue_clip_call with
            | Except.ok _ =>
              (q, textLogs ++
                ["Received audio of length: " ++ toString ab.length ++ " bytes"])
            | Except.error e =>
              (q, textLogs ++
                ["Received audio of length: " ++ toString ab.length ++ " bytes",
                 "Error processing audio data: " ++ e])

/-- Claim C1: for a clip with non-empty text of `W` words and duration
`D > 0`, when playback ends at elapsed time `e` with `0 ≤ e ≤ D`, the
worker sets the spoken text to exactly the first
`floor(e / (D / W))` words of the text joined by single spaces — a value
determined solely by `(e, D, W)` and the text, since `computeSpokenText`
is a function of exactly those. -/
theorem spoken_fraction_after_interrupt (text : String) (D e : ℚ)
    (hw : pySplit text ≠ []) (hD : 0 < D) (he0 : 0 ≤ e) (heD : e ≤ D) :
    computeSpokenText text D e =
      String.intercalate " "
        ((pySplit text).take (⌊e / (D / ((pySplit text).length : ℚ))⌋).toNat) := by
  have hlen : (0 : ℚ) < ((pySplit text).length : ℚ) := by
    exact_mod_cast List.length_pos.mpr hw
  have hwd : (0 : ℚ) < D / ((pySplit text).length : ℚ) := div_pos hD hlen
  have hq : (0 : ℚ) ≤ e / (D / ((pySplit text).length : ℚ)) := div_nonneg he0 hwd.le
  have hfl : (0 : ℤ) ≤ ⌊e / (D / ((pySplit text).length : ℚ))⌋ := Int.floor_nonneg.mpr hq
  simp only [computeSpokenText, pyInt, pySliceTo]
  rw [if_neg hw, min_eq_left heD, if_neg (ne_of_gt hwd), if_pos hq, if_pos hfl]

/-- Witness for C1: the 2-word clip `"hello world"` of duration 2 s,
interrupted at elapsed 1.1 s, yields `floor(1.1 / 1) = 1` word. -/
theorem spoken_fraction_after_interrupt_witness :
    pySplit "hello world" ≠ [] ∧ (0 : ℚ) < 2 ∧ (0 : ℚ) ≤ 11 / 10 ∧ (11 / 10 : ℚ) ≤ 2 ∧
    computeSpokenText "hello world" 2 (11 / 10) =
      String.intercalate " "
        ((pySplit "hello world").take
          (⌊(11 / 10 : ℚ) / (2 / ((pySplit "hello world").length : ℚ))⌋).toNat) :=
  ⟨by decide, by norm_num, by norm_num, by norm_num,
   spoken_fraction_after_interrupt "hello world" 2 (11 / 10)
     (by decide) (by norm_num) (by norm_num) (by norm_num)⟩

/-- Claim C9: a clip with non-empty text that plays to completion
(the polling loop exits only once the raw elapsed time has reached the
duration, so `D ≤ e`) yields a spoken word count of exactly `W`: in exact
arithmetic `floor(D / (D / W)) = W`, and the spoken text is the full word
list joined by single spaces. -/
theorem completion_spoken_count_full (text : String) (D e : ℚ)
    (hw : pySplit text ≠ []) (hD : 0 < D) (he : D ≤ e) :
    ⌊D / (D / ((pySplit text).length : ℚ))⌋ = ((pySplit text).length : ℤ) ∧
    computeSpokenText text D e = String.intercalate " " (pySplit text) := by
  have hlen : (0 : ℚ) < ((pySplit text).length : ℚ) := by
    exact_mod_cast List.length_pos.mpr hw
  have hwd : (0 : ℚ) < D / ((pySplit text).length : ℚ) := div_pos hD hlen
  have key : D / (D / ((pySplit text).length : ℚ)) = ((pySplit text).length : ℚ) := by
    field_simp
  have hfn : ⌊(((pySplit text).length : ℕ) : ℚ)⌋ = (((pySplit text).length : ℕ) : ℤ) :=
    Int.floor_natCast _
  constructor
  · rw [key, hfn]
  · simp only [computeSpokenText, pyInt, pySliceTo]
    rw [if_neg hw, min_eq_right he, if_neg (ne_of_gt hwd), key,
      if_pos (le_of_lt hlen), if_pos (Int.floor_nonneg.mpr (le_of_lt hlen)), hfn,
      Int.toNat_natCast, List.take_length]

/-- Witness for C9: `"hello world"` at duration 1 s played to completion
reproduces the full text. -/
theorem completion_spoken_count_full_witness :
    pySplit "hello world" ≠ [] ∧ (0 : ℚ) < 1 ∧ (1 : ℚ) ≤ 1 ∧
    (⌊(1 : ℚ) / (1 / ((pySplit "hello world").length : ℚ))⌋ =
        ((pySplit "hello world").length : ℤ) ∧
      computeSpokenText "hello world" 1 1 = String.intercalate " " (pySplit "hello world")) :=
  ⟨by decide, by norm_num, le_refl 1,
   completion_spoken_count_full "hello world" 1 1 (by decide) (by norm_num) (le_refl 1)⟩

/-- The drain loop of `handle_start_speaking` empties any queue. -/
theorem drainQueue_eq_nil (l : List Clip) : drainQueue l = [] := by
  induction l with
  | nil => rfl
  | cons c rest ih => simpa [drainQueue] using ih

/-- Claim C8: a `POST /` body whose `message` field equals
`"Start speaking"` makes the handler set the stop event, remove every
queued clip (the queue becomes empty), and respond 200 with body
`"true"`. -/
theorem start_speaking_drains_and_responds (st : CtrlState) :
    handle_start_speaking (some "Start speaking") st =
      ({ queue := [], interrupt := true }, some { status := 200, body := "true" }) := by
  simp [handle_start_speaking, drainQueue_eq_nil]

/-- Counterexample for C5: the claim says the clip queue is bounded and
its size never exceeds its configured capacity. The queue is constructed
as `asyncio.Queue()`, whose configured `maxsize` is 0: a single
`put_nowait` on the fresh queue is accepted (appended, not dropped) and
leaves the queue holding more items than the configured `maxsize`. -/
theorem queue_unbounded_counterexample :
    playback_queue.put_nowait { text := "hi", audio := [1] } =
      Except.ok { maxsize := 0, items := [{ text := "hi", audio := [1] }] } ∧
    ({ maxsize := 0, items := [{ text := "hi", audio := [1] }] } : AQueue Clip).items.length
      > playback_queue.maxsize :=
  ⟨rfl, Nat.zero_lt_one⟩

/-- Claim C5 (amended): the clip queue is constructed without a capacity
bound (`asyncio.Queue()` has `maxsize` 0), so `full()` is always false
and `put_nowait` never blocks, never raises and never drops: every
offered clip is appended, whatever the current queue contents. The
drop-and-log policy exists only in the commented-out `enqueue_clip`. -/
theorem put_nowait_never_full_never_drops (items : List Clip) (c : Clip) :
    AQueue.isFull { maxsize := 0, items := items } = false ∧
    AQueue.put_nowait { maxsize := 0, items := items } c =
      Except.ok { maxsize := 0, items := items ++ [c] } := by
  constructor
  · rfl
  · simp [AQueue.put_nowait, AQueue.isFull]

/-- Backoff delays of consecutive failures, from any retry counter. -/
theorem runConn_replicate_failure (n : Nat) : ∀ (r : Nat),
    (runConn r (List.replicate n ConnEv.failure)).2
      = (List.range n).map (fun i => min 60 (2 ^ (r + i + 1))) := by
  induction n with
  | zero => intro r; rfl
  | succ n ih =>
    intro r
    rw [List.replicate_succ]
    have hcons : (runConn r (ConnEv.failure :: List.replicate n ConnEv.failure)).2
        = min 60 (2 ^ (r + 1)) :: (runConn (r + 1) (List.replicate n ConnEv.failure)).2 := rfl
    rw [hcons, ih (r + 1), List.range_succ_eq_map, List.map_cons, List.map_map]
    simp only [List.cons.injEq]
    constructor
    · norm_num
    · refine List.map_congr_left ?_
      intro a _
      simp only [Function.comp_apply, Nat.succ_eq_add_one]
      have hexp : r + 1 + a + 1 = r + (a + 1) + 1 := by omega
      rw [hexp]

/-- Claim C6: after any successful connection (which resets the retry
counter to 0), `n` consecutive failures sleep exactly
`min(60, 2^1), min(60, 2^2), ..., min(60, 2^n)` seconds — so the n-th
consecutive failure sleeps `min(60, 2^n)` and the first failure after a
success sleeps `min(60, 2) = 2`. The step function is total, so the
connector has no terminal failure state. -/
theorem reconnect_backoff_delays (r n : Nat) :
    (runConn (connStep r ConnEv.success).1 (List.replicate n ConnEv.failure)).2
      = (List.range n).map (fun i => min 60 (2 ^ (i + 1))) ∧
    (connStep r ConnEv.success).1 = 0 := by
  constructor
  · rw [show (connStep r ConnEv.success).1 = 0 from rfl, runConn_replicate_failure]
    simp
  · rfl

/-- Any clip in the played list or queue after one step was already
played, already queued, or carried by this very event. -/
theorem step_mem (s : SysState) (e : Ev) (c : Clip)
    (h : c ∈ (step s e).played ∨ c ∈ (step s e).queue) :
    c ∈ s.played ∨ c ∈ s.queue ∨ e = Ev.enq c := by
  cases e with
  | enq c2 =>
    simp only [step, List.mem_append, List.mem_singleton] at h
    rcases h with h | h | h
    · exact Or.inl h
    · exact Or.inr (Or.inl h)
    · exact Or.inr (Or.inr (by rw [h]))
  | deq =>
    match hq : s.queue, hp : s.playing with
    | [], _ =>
      simp only [step, hq, hp] at h
      rcases h with h | h
      · exact Or.inl h
      · exact Or.inr (Or.inl h)
    | c2 :: rest, some c3 =>
      simp only [step, hq, hp] at h
      rcases h with h | h
      · exact Or.inl h
      · exact Or.inr (Or.inl h)
    | c2 :: rest, none =>
      simp only [step, hq, hp, List.mem_append, List.mem_singleton] at h
      rcases h with (h | h) | h
      · exact Or.inl h
      · exact Or.inr (Or.inl (by rw [h]; exact List.mem_cons_self _ _))
      · exact Or.inr (Or.inl (List.mem_cons_of_mem _ h))
  | poll =>
    have hst : (step s Ev.poll).played = s.played ∧ (step s Ev.poll).queue = s.queue := by
      cases hp : s.playing with
      | none => simp [step, hp]
      | some c2 => by_cases hi : s.interrupt <;> simp [step, hp, hi]
    rw [hst.1, hst.2] at h
    rcases h with h | h
    · exact Or.inl h
    · exact Or.inr (Or.inl h)
  | finish =>
    have hst : (step s Ev.finish).played = s.played ∧ (step s Ev.finish).queue = s.queue := by
      cases hp : s.playing with
      | none => simp [step, hp]
      | some c2 => simp [step, hp]
    rw [hst.1, hst.2] at h
    rcases h with h | h
    · exact Or.inl h
    · exact Or.inr (Or.inl h)
  | startSpeaking =>
    simp only [step] at h
    rcases h with h | h
    · exact Or.inl h
    · exact absurd h (by simp)

/-- Trace invariant: any clip played after a run of events was already
played, already queued at the start, or enqueued by one of the events. -/
theorem run_mem (es : List Ev) : ∀ (s : SysState) (c : Clip),
    c ∈ (run s es).played ∨ c ∈ (run s es).queue →
    c ∈ s.played ∨ c ∈ s.queue ∨ Ev.enq c ∈ es := by
  induction es with
  | nil =>
    intro s c h
    rcases h with h | h
    · exact Or.inl h
    · exact Or.inr (Or.inl h)
  | cons e es ih =>
    intro s c h
    rcases ih (step s e) c h with h2 | h2 | h2
    · rcases step_mem s e c (Or.inl h2) with h3 | h3 | h3
      · exact Or.inl h3
      · exact Or.inr (Or.inl h3)
      · exact Or.inr (Or.inr (by rw [h3]; exact List.mem_cons_self _ _))
    · rcases step_mem s e c (Or.inr h2) with h3 | h3 | h3
      · exact Or.inl h3
      · exact Or.inr (Or.inl h3)
      · exact Or.inr (Or.inr (by rw [h3]; exact List.mem_cons_self _ _))
    · exact Or.inr (Or.inr (List.mem_cons_of_mem _ h2))

/-- Claim C2: the `startSpeaking` event (the atomic set-and-drain of
`handle_start_speaking`) stops the current clip at the very next poll of
the playback loop — i.e. within one polling interval — and after it no
clip that was queued at drain time ever plays: any clip played later was
already started before the drain or was enqueued by an event after the
drain. -/
theorem interrupt_stops_and_drains (s : SysState) (es : List Ev) (c : Clip)
    (hc : c ∈ (run (step s Ev.startSpeaking) es).played) :
    (step (step s Ev.startSpeaking) Ev.poll).playing = none ∧
    (c ∈ s.played ∨ Ev.enq c ∈ es) := by
  constructor
  · cases hp : s.playing with
    | none => simp [step, hp]
    | some c2 => simp [step, hp]
  · have h2 := run_mem es (step s Ev.startSpeaking) c (Or.inl hc)
    simp only [step] at h2
    rcases h2 with h2 | h2 | h2
    · exact Or.inl h2
    · exact absurd h2 (by simp)
    · exact Or.inr h2

/-- Witness for C2: a state whose played list already holds one clip,
drained with no further events. -/
theorem interrupt_stops_and_drains_witness :
    (Clip.mk "hi" [0]) ∈ (run (step (SysState.mk [] false none [Clip.mk "hi" [0]])
        Ev.startSpeaking) []).played ∧
    (step (step (SysState.mk [] false none [Clip.mk "hi" [0]]) Ev.startSpeaking)
        Ev.poll).playing = none ∧
    ((Clip.mk "hi" [0]) ∈ (SysState.mk [] false none [Clip.mk "hi" [0]]).played ∨
      Ev.enq (Clip.mk "hi" [0]) ∈ ([] : List Ev)) :=
  ⟨by decide,
   (interrupt_stops_and_drains (SysState.mk [] false none [Clip.mk "hi" [0]]) []
      (Clip.mk "hi" [0]) (by decide)).1,
   (interrupt_stops_and_drains (SysState.mk [] false none [Clip.mk "hi" [0]]) []
      (Clip.mk "hi" [0]) (by decide)).2⟩

/-- Claim C3 (code bug): when the device raises `PortAudioError` on the
first attempt and again on the blocking retry, the retry loop evaluates
to an uncaught exception — the second failure is NOT logged and playback
does not proceed to the next clip, because the blocking retry runs inside
the first `except` handler with no protection and `playback_worker` has
no enclosing handler. The second conjunct shows the loop body never
consults the remaining attempts: every branch of iteration 1 breaks, so
the `attempt == 2` log-and-continue branch is dead code. -/
theorem second_device_failure_propagates :
    attemptLoop
        (Device.mk (fun _ => Except.error "PortAudioError: first")
          (Except.error "PortAudioError: second")) 10 2 [1, 2]
      = Except.error "PortAudioError: second" ∧
    ∀ (dev : Device) (now dur : ℚ) (rest : List Nat),
      attemptLoop dev now dur (1 :: rest) = attemptLoop dev now dur [1] :=
  ⟨rfl, fun _dev _now _dur _rest => rfl⟩

/-- Counterexample for C4: the byte string `b"not"` is a `bytes` payload
whose WAV decode fails, and the worker decode step evaluates to the
uncaught-exception outcome, not to the logged skip — the decode failure
does unwind past the playback worker. -/
theorem malformed_wav_unwinds_worker :
    workerDecode decodeWavModel (PyAudioVal.bytesVal [110, 111, 116]) =
      Except.error "file does not start with RIFF id" ∧
    workerDecode decodeWavModel (PyAudioVal.bytesVal [110, 111, 116]) ≠
      Except.ok none :=
  ⟨rfl, fun h => Except.noConfusion h⟩

/-- Claim C4 (amended): a dequeued clip whose payload is not a `bytes`
object is logged and skipped and the worker continues with the next clip;
but a `bytes` payload whose WAV decode fails raises an exception that is
not caught inside `playback_worker` and unwinds past the worker. -/
theorem decode_error_skip_amended (decode : List Nat → Except String DecodedAudio)
    (b : List Nat) (e : String) (hfail : decode b = Except.error e) :
    workerDecode decode PyAudioVal.otherVal = Except.ok none ∧
    workerDecode decode (PyAudioVal.bytesVal b) = Except.error e := by
  constructor
  · rfl
  · simp [workerDecode, hfail]

/-- Witness for the amended C4: the modelled decoder failing on
`b"not"`. -/
theorem decode_error_skip_amended_witness :
    decodeWavModel [110, 111, 116] = Except.error "file does not start with RIFF id" ∧
    (workerDecode decodeWavModel PyAudioVal.otherVal = Except.ok none ∧
      workerDecode decodeWavModel (PyAudioVal.bytesVal [110, 111, 116]) =
        Except.error "file does not start with RIFF id") :=
  ⟨rfl, decode_error_skip_amended decodeWavModel [110, 111, 116]
    "file does not start with RIFF id" rfl⟩

/-- Claim C7: on the primary feed, a message whose `robot_id` does not
equal the configured identity is skipped by `continue` before any audio
handling: the queue is unchanged and nothing is even logged. -/
theorem primary_filter_no_enqueue (q : List Clip) (m : InMsg)
    (hid : m.robot_id ≠ some ROBOT_ID) :
    processMsg "primary" q (RawMsg.valid m) = (q, []) := by
  simp [processMsg, hid]

/-- Witness for C7: a message stamped `robot_2` carrying audio. -/
theorem primary_filter_no_enqueue_witness :
    (InMsg.mk (some "robot_2") "hi" (some [1])).robot_id ≠ some ROBOT_ID ∧
    processMsg "primary" [] (RawMsg.valid (InMsg.mk (some "robot_2") "hi" (some [1])))
      = ([], []) :=
  ⟨by decide,
   primary_filter_no_enqueue [] (InMsg.mk (some "robot_2") "hi" (some [1])) (by decide)⟩

/-- No branch of the inbound-message processing ever changes the playback
queue: the only call that could, `enqueue_clip`, is undefined in the
active module. -/
theorem processMsg_queue_unchanged (label : String) (q : List Clip) (raw : RawMsg) :
    (processMsg label q raw).1 = q := by
  cases raw with
  | invalidJson err => rfl
  | valid m =>
    by_cases hf : label = "primary" ∧ m.robot_id ≠ some ROBOT_ID
    · simp [processMsg, hf]
    · cases haud : m.audio with
      | none => simp [processMsg, hf, haud]
      | some l =>
        by_cases hl : l = []
        · simp [processMsg, hf, haud, hl]
        · cases hpb : pyBytes l with
          | error e => simp [processMsg, hf, haud, hl, hpb]
          | ok ab => simp [processMsg, hf, haud, hl, hpb, enqueue_clip_call]

/-- Claim C10: `enqueue_clip` is defined only in commented-out text, so a
feed message carrying non-empty, convertible audio reaches the
`await enqueue_clip(...)` call, which raises `NameError`; the surrounding
`except Exception` handler catches it and logs the error, the queue is
unchanged — and in fact no inbound message on any feed ever changes the
queue. -/
theorem enqueue_clip_name_error (label : String) (q : List Clip) (m : InMsg)
    (l : List Nat) (haud : m.audio = some l) (hne : l ≠ [])
    (hbytes : l.all (fun b => b < 256) = true)
    (hfilter : ¬(label = "primary" ∧ m.robot_id ≠ some ROBOT_ID)) :
    (processMsg label q (RawMsg.valid m)).1 = q ∧
    "Error processing audio data: NameError: name enqueue_clip is not defined"
      ∈ (processMsg label q (RawMsg.valid m)).2 ∧
    ∀ (lab : String) (q2 : List Clip) (raw : RawMsg),
      (processMsg lab q2 raw).1 = q2 := by
  refine ⟨processMsg_queue_unchanged label q (RawMsg.valid m), ?_,
    fun lab q2 raw => processMsg_queue_unchanged lab q2 raw⟩
  have hok : pyBytes l = Except.ok l := by simp [pyBytes, hbytes]
  simp [processMsg, hfilter, haud, hne, hok, enqueue_clip_call]

/-- Witness for C10: a lecture-feed message with audio `[1, 2]`. -/
theorem enqueue_clip_name_error_witness :
    (InMsg.mk none "" (some [1, 2])).audio = some [1, 2] ∧
    ((processMsg "lecture" [] (RawMsg.valid (InMsg.mk none "" (some [1, 2])))).1 = [] ∧
      "Error processing audio data: NameError: name enqueue_clip is not defined"
        ∈ (processMsg "lecture" [] (RawMsg.valid (InMsg.mk none "" (some [1, 2])))).2) :=
  ⟨rfl,
   (enqueue_clip_name_error "lecture" [] (InMsg.mk none "" (some [1, 2])) [1, 2]
      rfl (by decide) (by decide) (by decide)).1,
   (enqueue_clip_name_error "lecture" [] (InMsg.mk none "" (some [1, 2])) [1, 2]
      rfl (by decide) (by decide) (by decide)).2.1⟩
